import Mathlib

/-!
Shallow embedding of the `whisper_transcribe` package
(`src/whisper_transcribe/core.py` and `src/whisper_transcribe/server.py`).

Numbers that are Python floats (segment times, durations) are modelled as
rationals (`ℚ`).  Python's filesystem, the torch/whisper library and the
current date are modelled as explicit environments, so that the pipeline
functions become pure Lean functions from environment and arguments to
results plus an event trace.
-/

namespace WhisperTranscribe

/-! ### Decimal rendering of numbers (Python `str`/format specs) -/

/-- The character for a decimal digit `d < 10` (Python renders integers in
decimal; `48` is the code point of `0`). -/
def digitChar (d : Nat) : Char := Char.ofNat (48 + d)

/-- Decimal digits of `n`, accumulated with explicit fuel so that the
definition is structurally recursive (the fuel `n + 1` always suffices,
since `n / 10 < n` for `n ≥ 10`). -/
def natDecimalAux : Nat → Nat → List Char
  | 0, _ => []
  | fuel + 1, n =>
    if n < 10 then [digitChar n]
    else natDecimalAux fuel (n / 10) ++ [digitChar (n % 10)]

/-- Decimal rendering of a natural number, as Python's `str` does. -/
def natDecimal (n : Nat) : String := ⟨natDecimalAux (n + 1) n⟩

/-- Decimal rendering of an integer, as Python's `str` does. -/
def intDecimal (n : ℤ) : String :=
  if n < 0 then "-" ++ natDecimal n.natAbs else natDecimal n.toNat

/-- Python's format spec `{:02d}`: decimal rendering left-padded with zeros
to at least two characters. -/
def pad2 (n : ℤ) : String :=
  let s := intDecimal n
  if s.length < 2 then "0" ++ s else s

/-- Round a rational to the nearest integer, ties to the even integer
(the rounding used by Python's fixed-point float formatting). -/
def roundHalfEven (q : ℚ) : ℤ :=
  let f := ⌊q⌋
  let r := q - f
  if r < 1 / 2 then f
  else if 1 / 2 < r then f + 1
  else if Even f then f else f + 1

/-- Python's format spec `{:.1f}`: the number rendered with exactly one
digit after the decimal point. -/
def formatFixed1 (q : ℚ) : String :=
  let n := roundHalfEven (q * 10)
  let m := n.natAbs
  let core := natDecimal (m / 10) ++ "." ++ natDecimal (m % 10)
  if n < 0 then "-" ++ core else core

/-- Python's `str.upper()` (ASCII case mapping, which covers the uses in
the source: device tags). -/
def pyUpper (s : String) : String := ⟨s.data.map Char.toUpper⟩

/-- Python's notion of ASCII whitespace for `str.strip()` (space, tab,
newline, carriage return, vertical tab, form feed). -/
def isPySpace (c : Char) : Bool :=
  c = ' ' || c = '\t' || c = '\n' || c = '\r' || c = Char.ofNat 11 || c = Char.ofNat 12

/-- Python's `str.strip()`: drop whitespace from both ends. -/
def pyStrip (s : String) : String :=
  ⟨((s.data.dropWhile isPySpace).reverse.dropWhile isPySpace).reverse⟩

/-- Equality of `Except` values is decidable when it is on both sides
(used only to evaluate the embedding at concrete inputs). -/
instance instDecEqExcept {ε α : Type} [DecidableEq ε] [DecidableEq α] :
    DecidableEq (Except ε α)
  | .error a, .error b =>
    if h : a = b then .isTrue (by rw [h]) else .isFalse (by simp [h])
  | .error _, .ok _ => .isFalse (by simp)
  | .ok _, .error _ => .isFalse (by simp)
  | .ok a, .ok b =>
    if h : a = b then .isTrue (by rw [h]) else .isFalse (by simp [h])

/-- Python's `sep.join(xs)`. -/
def pyJoin (sep : String) : List String → String
  | [] => ""
  | [x] => x
  | x :: xs => x ++ sep ++ pyJoin sep xs

/-- A single quote character (code point 39). -/
def singleQuote : String := String.singleton (Char.ofNat 39)

/-- Python's `str` of a list of strings: `['a', 'b']`. -/
def pyListRepr (xs : List String) : String :=
  "[" ++ String.intercalate ", " (xs.map fun x => singleQuote ++ x ++ singleQuote) ++ "]"

/-! ### Registry (`core.py` lines 12–16) -/

/-- `SUPPORTED_FORMATS` from `core.py` (a Python `set`, here a list). -/
def SUPPORTED_FORMATS : List String :=
  [".mp3", ".wav", ".m4a", ".flac", ".ogg", ".wma", ".aac",
   ".mp4", ".webm", ".mkv", ".avi", ".mov"]

/-- `AVAILABLE_MODELS` from `core.py` (a Python `list`). -/
def AVAILABLE_MODELS : List String :=
  ["tiny", "base", "small", "medium", "large", "large-v2", "large-v3"]

/-! ### `os.path` on POSIX paths

The repository calls `os.path.exists`, `os.path.splitext`,
`os.path.basename`, `os.path.dirname`, `os.path.join`, `os.path.abspath`
and `os.path.expanduser`.  The pure string functions are modelled from
CPython's `posixpath`; `abspath` is modelled without `normpath`
normalisation (no collapsing of `.`/`..`), and `expanduser` without the
`~user` form. -/

/-- `os.path.basename`: everything after the last `/`. -/
def basename (p : String) : String :=
  ⟨(p.data.reverse.takeWhile (· ≠ '/')).reverse⟩

/-- `os.path.dirname`: everything up to the last `/`, with trailing
slashes stripped unless the result consists only of slashes. -/
def dirname (p : String) : String :=
  let head := (p.data.reverse.dropWhile (· ≠ '/')).reverse
  if head ≠ [] ∧ ¬ head.all (· = '/') then
    ⟨(head.reverse.dropWhile (· = '/')).reverse⟩
  else ⟨head⟩

/-- Length of the extension (including the dot) that `os.path.splitext`
splits off: the part from the last `.` of the base name, provided some
non-dot character precedes it inside the base name. -/
def extLen (p : String) : Nat :=
  let base := (p.data.reverse.takeWhile (· ≠ '/')).reverse
  let revAfter := base.reverse.takeWhile (· ≠ '.')
  if revAfter.length = base.length then 0
  else
    let dotIdx := base.length - revAfter.length - 1
    if (base.take dotIdx).any (· ≠ '.') then revAfter.length + 1 else 0

/-- `os.path.splitext`: split into root and extension. -/
def splitext (p : String) : String × String :=
  let n := p.data.length - extLen p
  (⟨p.data.take n⟩, ⟨p.data.drop n⟩)

/-- Whether a path string starts with the separator `/` (as
`b.startswith('/')` does). -/
def startsWithSep (p : String) : Bool :=
  match p.data with
  | [] => false
  | c :: _ => c = '/'

/-- Whether a path string ends with the separator `/`. -/
def endsWithSep (p : String) : Bool :=
  match p.data.getLast? with
  | some c => c = '/'
  | none => false

/-- `os.path.join` restricted to two components, as used in the source. -/
def joinPath (a b : String) : String :=
  if startsWithSep b then b
  else if a = "" ∨ endsWithSep a then a ++ b
  else a ++ "/" ++ b

/-- `os.path.abspath`, modelled as joining onto the current working
directory (without `normpath` normalisation). -/
def abspath (cwd p : String) : String :=
  if startsWithSep p then p else joinPath cwd p

/-- `os.path.expanduser`, modelled for the `~` and `~/...` forms
(`~` alone becomes the home directory; `~/rest` becomes the home
directory joined with `rest`). -/
def expanduser (home p : String) : String :=
  if p = "~" then home
  else if (match p.data with
           | c1 :: c2 :: _ => c1 = '~' && c2 = '/'
           | _ => false) then home ++ (⟨p.data.drop 1⟩ : String)
  else p

/-! ### Data model (`core.py` lines 19–35) -/

/-- `TranscriptSegment`: a single segment of transcription. -/
structure TranscriptSegment where
  start : ℚ
  «end» : ℚ
  text : String
  deriving DecidableEq, Repr

/-- `TranscriptResult`: result of transcription. -/
structure TranscriptResult where
  text : String
  segments : List TranscriptSegment
  language : String
  duration_min : ℚ
  device : String
  model : String
  deriving DecidableEq, Repr

/-! ### `format_timestamp` (`core.py` lines 38–42) -/

/-- `format_timestamp`: format seconds as MM:SS.  In Python
`mins = int(seconds // 60)` (floor division, exact on its integer value)
and `secs = int(seconds % 60)` where `seconds % 60 = seconds -
60 * (seconds // 60)` lies in `[0, 60)`, so `int` truncation is a floor. -/
def format_timestamp (seconds : ℚ) : String :=
  let mins : ℤ := ⌊seconds / 60⌋
  let secs : ℤ := ⌊seconds - 60 * (⌊seconds / 60⌋ : ℚ)⌋
  pad2 mins ++ ":" ++ pad2 secs

/-! ### The external world (torch / whisper / filesystem probes)

`torch.backends.mps.is_available()`, `whisper.load_model` and
`model.transcribe` are opaque external collaborators; they are modelled as
oracle fields of an environment.  `os.path.exists` is modelled the same
way.  A loaded model is determined by its name and device, so
`model.transcribe` is an oracle taking both plus the call arguments. -/

/-- One segment of the raw result dict returned by `model.transcribe`. -/
structure RawSegment where
  start : ℚ
  «end» : ℚ
  text : String
  deriving DecidableEq, Repr

/-- The raw result dict returned by `model.transcribe`.  `text` and
`language` are read with `result.get(..., default)`, so they may be
absent. -/
structure RawResult where
  segments : List RawSegment
  text : Option String
  language : Option String
  deriving DecidableEq, Repr

/-- Environment for `core.py`: filesystem probe and the whisper library.
`loadModel` and `runModel` may fail with an arbitrary exception message;
`runModel` receives model name, device, file path, and the language and
initial-prompt options (absent when the caller passed a falsy value). -/
structure MEnv where
  fileExists : String → Bool
  mpsAvailable : Bool
  loadModel : String → String → Except String Unit
  runModel : String → String → String → Option String → Option String → Except String RawResult

/-- Python truthiness of an optional string, as used by
`if language: transcribe_options["language"] = language`: an absent or
empty string leaves the option unset. -/
def pyTruthyOpt : Option String → Option String
  | some s => if s = "" then none else some s
  | none => none

/-- `get_device` (`core.py` lines 45–49): detect best available device. -/
def get_device (env : MEnv) : String :=
  if env.mpsAvailable then "mps" else "cpu"

/-- The exceptions `transcribe_file` can raise. -/
inductive TError where
  | fileNotFound (msg : String)
  | invalidModel (msg : String)
  | transcriptionError (msg : String)
  deriving DecidableEq, Repr

/-- Python's `str(e)` for the exceptions above. -/
def TError.message : TError → String
  | .fileNotFound m => m
  | .invalidModel m => m
  | .transcriptionError m => m

/-- `transcribe_file` (`core.py` lines 52–134).  The returned list is the
trace of `(stage, message)` progress notifications delivered to
`on_progress`; `hasSink` is whether an `on_progress` callback was supplied
(`if on_progress:` in the source).  The second component is the normal
result or the raised exception. -/
def transcribe_file (env : MEnv) (file_path : String) (model_name : String)
    (language : Option String) (prompt : Option String) (hasSink : Bool) :
    List (String × String) × Except TError TranscriptResult :=
  if ¬ env.fileExists file_path then
    ([], .error (.fileNotFound ("File not found: " ++ file_path)))
  else if model_name ∉ AVAILABLE_MODELS then
    ([], .error (.invalidModel ("Invalid model: " ++ model_name ++ ". Available: "
      ++ pyListRepr AVAILABLE_MODELS)))
  else
    let device := get_device env
    let events := if hasSink then [("device", "Using " ++ pyUpper device)] else []
    let events := events ++
      (if hasSink then [("loading", "Loading " ++ model_name ++ " model...")] else [])
    match env.loadModel model_name device with
    | .error e => (events, .error (.transcriptionError e))
    | .ok _ =>
      let events := events ++
        (if hasSink then [("loaded", "Model " ++ model_name ++ " loaded")] else [])
      let events := events ++
        (if hasSink then [("transcribing", "Transcribing...")] else [])
      match env.runModel model_name device file_path
          (pyTruthyOpt language) (pyTruthyOpt prompt) with
      | .error e => (events, .error (.transcriptionError e))
      | .ok raw =>
        let events := events ++
          (if hasSink then [("complete", "Transcription complete")] else [])
        let segments := raw.segments.map fun s =>
          { start := s.start, «end» := s.«end», text := pyStrip s.text : TranscriptSegment }
        let duration_min : ℚ := match segments.getLast? with
          | some s => s.«end» / 60
          | none => 0
        let full_text := pyStrip (raw.text.getD "")
        (events, .ok { text := full_text, segments := segments,
                       language := raw.language.getD "unknown",
                       duration_min := duration_min, device := device,
                       model := model_name })

/-! ### `result_to_markdown` (`core.py` lines 137–168)

`datetime.now().strftime("%Y-%m-%d")` is modelled by an explicit `today`
argument; the Python parameter `date_str=None` is the `Option`. -/

/-- `result_to_markdown`: convert a `TranscriptResult` to a Markdown
string.  The Python builds a list `lines`, appends two lines per segment
in a `for` loop, and returns `"\n".join(lines)`. -/
def result_to_markdown (today : String) (result : TranscriptResult)
    (source_filename : String) (date_str : Option String) : String :=
  let d := date_str.getD today
  let file_name := (splitext source_filename).1
  let headerLines : List String :=
    ["---",
     "type: transcript",
     "date: " ++ d,
     "source: \"[[" ++ source_filename ++ "]]\"",
     "duration: " ++ formatFixed1 result.duration_min ++ " min",
     "language: " ++ result.language,
     "device: " ++ result.device,
     "model: " ++ result.model,
     "---",
     "",
     "# Transcript: " ++ file_name,
     ""]
  let allLines := result.segments.foldl
    (fun acc segment =>
      acc ++ ["**[" ++ format_timestamp segment.start ++ "]** " ++ segment.text, ""])
    headerLines
  pyJoin "\n" allLines

/-! ### Filesystem state and `save_transcript` (`core.py` lines 171–207) -/

/-- Filesystem state: files as a path-to-contents association list (most
recent write first) and the set of directories created.  `os.makedirs`
and `open(..., "w")` always succeed in this model. -/
structure FS where
  files : List (String × String)
  dirs : List String
  deriving DecidableEq, Repr

/-- Contents of the file at `p`, if any. -/
def FS.read (fs : FS) (p : String) : Option String :=
  fs.files.lookup p

/-- `open(p, "w"); f.write(c)`: create or overwrite the single file `p`. -/
def FS.write (fs : FS) (p c : String) : FS :=
  { fs with files := (p, c) :: fs.files }

/-- `os.makedirs(d, exist_ok=True)`. -/
def FS.makedirs (fs : FS) (d : String) : FS :=
  { fs with dirs := d :: fs.dirs }

/-- Environment for the impure path/date context of `save_transcript`:
the process working directory (used by `os.path.abspath`) and today's
date already rendered with `strftime("%Y-%m-%d")`. -/
structure OsEnv where
  cwd : String
  today : String

/-- The `else` branch of `save_transcript`: derive
`<dir of source>/Transcripts/<date> <name> Transcript.md`, creating the
`Transcripts` directory. -/
def save_transcript_auto (env : OsEnv) (fs : FS) (source_path : String) :
    FS × String :=
  let file_dir := dirname (abspath env.cwd source_path)
  let transcripts_dir := joinPath file_dir "Transcripts"
  let fs1 := fs.makedirs transcripts_dir
  let file_name := (splitext (basename source_path)).1
  (fs1, joinPath transcripts_dir (env.today ++ " " ++ file_name ++ " Transcript.md"))

/-- `save_transcript`: save transcript to a Markdown file and return the
path it was written to.  `if output_path:` is Python truthiness, so an
empty string falls through to the auto-generated path. -/
def save_transcript (env : OsEnv) (fs : FS) (result : TranscriptResult)
    (source_path : String) (output_path : Option String) : FS × String :=
  let resolved : FS × String :=
    match output_path with
    | some op =>
      if op = "" then save_transcript_auto env fs source_path
      else
        let output_dir := dirname (abspath env.cwd op)
        (if output_dir = "" then fs else fs.makedirs output_dir, op)
    | none => save_transcript_auto env fs source_path
  let markdown := result_to_markdown env.today result (basename source_path) none
  ((resolved.1).write resolved.2 markdown, resolved.2)

/-! ### The MCP tool server (`server.py`) -/

/-- A value of Python's dynamic type, as far as `server.py` exercises it:
`AVAILABLE_MODELS` is used both where a list and where a dict is
expected. -/
inductive PyValue where
  | pylist (xs : List String)
  | pydict (kvs : List (String × String))
  deriving DecidableEq, Repr

/-- The Python exceptions arising in `list_tools`. -/
inductive PyErr where
  | attributeError (msg : String)
  deriving DecidableEq, Repr

/-- Python attribute access `v.keys()`: only dicts have `keys`; on a list
it raises `AttributeError`. -/
def pyKeys : PyValue → Except PyErr (List String)
  | .pydict kvs => .ok (kvs.map Prod.fst)
  | .pylist _ => .error (.attributeError
      "list object has no attribute keys")

/-- The value `server.py` imports as `AVAILABLE_MODELS` from `core.py`:
a Python list. -/
def AVAILABLE_MODELS_value : PyValue := .pylist AVAILABLE_MODELS

/-- The slice of `mcp.types.Tool` that `list_tools` builds: name,
description, and the `enum` list of the `model` property of the input
schema (the only schema part whose construction can fail). -/
structure Tool where
  name : String
  description : String
  modelEnum : List String
  deriving DecidableEq, Repr

/-- `list_tools` (`server.py` lines 30–85): building the `transcribe`
tool evaluates `list(AVAILABLE_MODELS.keys())` inside the input schema,
so the whole handler raises if that raises. -/
def list_tools : Except PyErr (List Tool) := do
  let modelEnum ← pyKeys AVAILABLE_MODELS_value
  pure
    [{ name := "transcribe",
       description := "Transcribe audio/video file to text using MLX Whisper.",
       modelEnum := modelEnum },
     { name := "transcribe_info",
       description := "Get information about available models and supported formats.",
       modelEnum := [] }]

/-- The static text returned by the `transcribe_info` tool (`server.py`
lines 93–111); the two `', '.join(sorted(...))` expressions are written
out with their (deterministic) values. -/
def transcribe_info_text : String :=
  "# Whisper Transcribe (MLX)\n\n## Supported Formats\n**Audio:** "
    ++ String.intercalate ", " [".aac", ".flac", ".m4a", ".mp3", ".ogg", ".wav", ".wma"]
    ++ "\n**Video:** "
    ++ String.intercalate ", " [".avi", ".mkv", ".mov", ".mp4", ".webm"]
    ++ "\n\n## Available Models\n| Model | Speed | Quality |\n|-------|-------|---------|\n| tiny | ⚡⚡⚡ | Basic |\n| base | ⚡⚡ | Good |\n| small | ⚡ | Better |\n| **medium** | 🐢 | Great (recommended) |\n| large | 🐢🐢 | Best |\n| **turbo** | ⚡⚡ | Great (fast) |\n\nModels are downloaded automatically from Hugging Face on first use.\nOptimized for Apple Silicon using MLX.\n"

/-- The argument bag of a `call_tool` invocation (`arguments.get(...)`
returns `None` for missing keys). -/
structure ToolArgs where
  file : Option String
  model : Option String
  language : Option String
  prompt : Option String
  output : Option String
  save_file : Option Bool

/-- Environment for the server: the core environment, the os context,
and the home directory used by `os.path.expanduser`. -/
structure SrvEnv where
  m : MEnv
  os : OsEnv
  home : String

/-- `call_tool` (`server.py` lines 88–177).  Returns the filesystem after
the call and the list of `TextContent` payloads (always exactly one).
The `try`/`except` of the source catches every exception from the
pipeline and renders it as an error-prefixed text, which the `match` on
the `Except` value mirrors. -/
def call_tool (env : SrvEnv) (fs : FS) (name : String) (args : ToolArgs) :
    FS × List String :=
  if name = "transcribe_info" then
    (fs, [transcribe_info_text])
  else if name = "transcribe" then
    -- `file_path = arguments.get("file")`; `if not file_path:` catches
    -- both a missing key and an empty string
    let file_path0 := args.file.getD ""
    if file_path0 = "" then
      (fs, ["❌ Error: " ++ singleQuote ++ "file" ++ singleQuote
        ++ " parameter is required"])
    else
      let file_path := expanduser env.home file_path0
      if ¬ env.m.fileExists file_path then
        (fs, ["❌ Error: File not found: " ++ file_path])
      else
        let model_name := args.model.getD "medium"
        match (transcribe_file env.m file_path model_name args.language args.prompt true).2 with
        | .error e => (fs, ["❌ Error: " ++ e.message])
        | .ok result =>
          let source_filename := basename file_path
          let markdown := result_to_markdown env.os.today result source_filename none
          let save_file := args.save_file.getD true
          let saved : FS × String :=
            if save_file then
              -- `if output: output = os.path.expanduser(output)`
              let output := match args.output with
                | some o => if o = "" then some o else some (expanduser env.home o)
                | none => none
              let (fs2, output_file) := save_transcript env.os fs result file_path output
              (fs2, "\n\n---\n✅ Saved to: " ++ output_file)
            else (fs, "")
          let response := markdown ++ saved.2
            ++ "\n\n---\n**Stats:** " ++ formatFixed1 result.duration_min
            ++ " min | " ++ natDecimal result.segments.length
            ++ " segments | Language: " ++ result.language
            ++ " | Device: " ++ result.device
          (saved.1, [response])
  else
    (fs, ["❌ Unknown tool: " ++ name])

/-! ### Concrete instances used to witness the theorems below -/

/-- An empty filesystem. -/
def fs0 : FS := { files := [], dirs := [] }

/-- An os context with a fixed working directory and date. -/
def osEnvW : OsEnv := { cwd := "/cwd", today := "2026-10-12" }

/-- A core environment in which the source file is missing. -/
def envMissing : MEnv :=
  { fileExists := fun _ => false, mpsAvailable := true,
    loadModel := fun _ _ => .ok (), runModel := fun _ _ _ _ _ => .error "unused" }

/-- A core environment in which everything succeeds and the model returns
a single raw segment with untrimmed text. -/
def envOneSeg : MEnv :=
  { fileExists := fun _ => true, mpsAvailable := true,
    loadModel := fun _ _ => .ok (),
    runModel := fun _ _ _ _ _ => .ok
      { segments := [{ start := 0, «end» := 90, text := " hi " }],
        text := some " hi ", language := some "en" } }

/-- The transcript that `transcribe_file` produces under `envOneSeg`. -/
def resOneSeg : TranscriptResult :=
  { text := "hi", segments := [{ start := 0, «end» := 90, text := "hi" }],
    language := "en", duration_min := 90 / 60, device := "mps", model := "medium" }

/-- A server environment whose filesystem probe always succeeds. -/
def srvEnvW : SrvEnv := { m := envOneSeg, os := osEnvW, home := "/home/u" }

/-! ## Theorems -/

/-! ### Generic helper lemmas about the string plumbing -/

theorem join_cons (a : String) (l : List String) :
    String.join (a :: l) = a ++ String.join l := by
  apply String.ext
  simp [String.join_eq]

theorem pyJoin_cons_eq (sep x : String) (l : List String) :
    pyJoin sep (x :: l) = x ++ String.join (l.map (sep ++ ·)) := by
  induction l generalizing x with
  | nil => simp [pyJoin, String.join]
  | cons y t ih =>
    simp only [pyJoin, ih y, List.map_cons, join_cons, String.append_assoc]

theorem foldl_two_lines :
    ∀ (l : List TranscriptSegment) (init : List String),
      l.foldl (fun acc segment =>
          acc ++ ["**[" ++ format_timestamp segment.start ++ "]** "
            ++ segment.text, ""]) init
        = init ++ l.flatMap (fun segment =>
            ["**[" ++ format_timestamp segment.start ++ "]** "
              ++ segment.text, ""]) := by
  intro l
  induction l with
  | nil => intro init; simp
  | cons x xs ih =>
    intro init
    simp only [List.foldl_cons, ih, List.flatMap_cons, List.append_assoc,
      List.cons_append, List.nil_append]

theorem join_flat_lines (segs : List TranscriptSegment) :
    String.join ((segs.flatMap (fun segment =>
        ["**[" ++ format_timestamp segment.start ++ "]** "
          ++ segment.text, ""])).map ("\n" ++ ·))
      = String.join (segs.map fun s =>
          "\n**[" ++ format_timestamp s.start ++ "]** " ++ s.text ++ "\n") := by
  induction segs with
  | nil => rfl
  | cons x t ih =>
    simp only [String.append_assoc] at ih
    simp only [List.flatMap_cons, List.map_cons, List.map_append, join_cons,
      List.cons_append, List.nil_append, String.append_assoc,
      String.append_empty, ih]
    rfl

/-- The exact shape of the string `result_to_markdown` produces: the
front-matter block, the title heading, and one blank-line-separated
paragraph per segment, in order. -/
theorem result_to_markdown_eq (today : String) (r : TranscriptResult)
    (fn : String) (ds : Option String) :
    result_to_markdown today r fn ds =
      "---\ntype: transcript\ndate: " ++ ds.getD today
        ++ "\nsource: \"[[" ++ fn ++ "]]\"\nduration: "
        ++ formatFixed1 r.duration_min ++ " min\nlanguage: " ++ r.language
        ++ "\ndevice: " ++ r.device ++ "\nmodel: " ++ r.model
        ++ "\n---\n\n# Transcript: " ++ (splitext fn).1 ++ "\n"
        ++ String.join (r.segments.map fun s =>
             "\n**[" ++ format_timestamp s.start ++ "]** " ++ s.text ++ "\n") := by
  simp only [result_to_markdown]
  rw [foldl_two_lines]
  simp only [List.cons_append, List.nil_append]
  rw [pyJoin_cons_eq]
  simp only [List.map_cons, List.map_append, join_cons, String.append_empty]
  rw [join_flat_lines]
  simp only [String.append_assoc]
  rfl

/-! ### C10 — `list_tools` always raises -/

/-- C10: the tool server's `list_tools` operation raises on every
invocation: it evaluates `AVAILABLE_MODELS.keys()`, but
`AVAILABLE_MODELS` is a list, so building the `transcribe` tool's model
enumeration always fails with an `AttributeError` and the capability
listing never returns a tool list. -/
theorem list_tools_always_raises :
    list_tools = Except.error (PyErr.attributeError
      "list object has no attribute keys") := rfl

/-! ### C4 — eager validation in `transcribe_file` -/

/-- C4: `transcribe_file` raises a not-found error exactly when the path
does not exist, and an invalid-model error exactly when the path exists
but the model name is not in the registry (the path check runs first);
on either failure the progress trace is empty, so no notification (in
particular none for "loading") is ever emitted. -/
theorem transcribe_file_validation (env : MEnv) (fp mn : String)
    (lg pr : Option String) (sink : Bool) :
    ((∃ m, (transcribe_file env fp mn lg pr sink).2
        = .error (.fileNotFound m)) ↔ env.fileExists fp = false)
  ∧ ((∃ m, (transcribe_file env fp mn lg pr sink).2
        = .error (.invalidModel m)) ↔
      env.fileExists fp = true ∧ mn ∉ AVAILABLE_MODELS)
  ∧ ((env.fileExists fp = false ∨ mn ∉ AVAILABLE_MODELS) →
      (transcribe_file env fp mn lg pr sink).1 = []) := by
  by_cases h1 : env.fileExists fp
  · by_cases h2 : mn ∈ AVAILABLE_MODELS
    · have hbody :
          ∀ m, (transcribe_file env fp mn lg pr sink).2
              ≠ .error (.fileNotFound m)
            ∧ (transcribe_file env fp mn lg pr sink).2
              ≠ .error (.invalidModel m) := by
        intro m
        simp only [transcribe_file, h1, h2, not_true_eq_false, if_false,
          Bool.not_eq_true]
        cases hl : env.loadModel mn (get_device env) with
        | error e => simp
        | ok u =>
          cases hr : env.runModel mn (get_device env) fp
              (pyTruthyOpt lg) (pyTruthyOpt pr) with
          | error e => simp
          | ok raw => simp
      refine ⟨?_, ?_, ?_⟩
      · constructor
        · rintro ⟨m, hm⟩; exact absurd hm (hbody m).1
        · intro hf; rw [h1] at hf; cases hf
      · constructor
        · rintro ⟨m, hm⟩; exact absurd hm (hbody m).2
        · rintro ⟨-, hf⟩; exact absurd h2 hf
      · rintro (hf | hf)
        · rw [h1] at hf; cases hf
        · exact absurd h2 hf
    · simp [transcribe_file, h1, h2]
  · simp [transcribe_file, h1]

/-- C4 witness: with a missing source file, the theorem yields an empty
progress trace for a concrete call. -/
theorem transcribe_file_validation_witness :
    (transcribe_file envMissing "talk.mp3" "medium" none none true).1 = [] :=
  (transcribe_file_validation envMissing "talk.mp3" "medium" none none true).2.2
    (Or.inl rfl)

/-! ### C5 — ordered progress notifications -/

/-- C5: every successful `transcribe_file` call with a progress sink
emits exactly five notifications — device selected, model loading
started, model loaded, transcription started, transcription complete —
in this order, each with a human-readable message; with no sink, no
notification is emitted. -/
theorem transcribe_file_progress (env : MEnv) (fp mn : String)
    (lg pr : Option String) :
    (∀ r, (transcribe_file env fp mn lg pr true).2 = .ok r →
      (transcribe_file env fp mn lg pr true).1 =
        [("device", "Using " ++ pyUpper (get_device env)),
         ("loading", "Loading " ++ mn ++ " model..."),
         ("loaded", "Model " ++ mn ++ " loaded"),
         ("transcribing", "Transcribing..."),
         ("complete", "Transcription complete")])
  ∧ (transcribe_file env fp mn lg pr false).1 = [] := by
  constructor
  · intro r hr
    by_cases h1 : env.fileExists fp
    · by_cases h2 : mn ∈ AVAILABLE_MODELS
      · simp only [transcribe_file, h1, h2, not_true_eq_false, if_false,
          Bool.not_eq_true] at hr ⊢
        cases hl : env.loadModel mn (get_device env) with
        | error e => rw [hl] at hr; simp at hr
        | ok u =>
          rw [hl] at hr
          cases hm : env.runModel mn (get_device env) fp
              (pyTruthyOpt lg) (pyTruthyOpt pr) with
          | error e => rw [hm] at hr; simp at hr
          | ok raw => simp
      · simp [transcribe_file, h1, h2] at hr
    · simp [transcribe_file, h1] at hr
  · by_cases h1 : env.fileExists fp
    · by_cases h2 : mn ∈ AVAILABLE_MODELS
      · simp only [transcribe_file, h1, h2, not_true_eq_false, if_false,
          Bool.not_eq_true]
        cases hl : env.loadModel mn (get_device env) with
        | error e => simp
        | ok u =>
          cases hm : env.runModel mn (get_device env) fp
              (pyTruthyOpt lg) (pyTruthyOpt pr) with
          | error e => simp
          | ok raw => simp
      · simp [transcribe_file, h1, h2]
    · simp [transcribe_file, h1]

/-- C5 witness: a concrete successful call with a sink produces exactly
the five notifications. -/
theorem transcribe_file_progress_witness :
    (transcribe_file envOneSeg "talk.mp3" "medium" none none true).1 =
      [("device", "Using MPS"),
       ("loading", "Loading medium model..."),
       ("loaded", "Model medium loaded"),
       ("transcribing", "Transcribing..."),
       ("complete", "Transcription complete")] := by
  exact (transcribe_file_progress envOneSeg "talk.mp3" "medium" none none).1
    resOneSeg rfl


/-! ### C1 — duration and the front-matter `duration` field -/

/-- C1: for every `TranscriptResult` produced by `transcribe_file`,
`duration_min` equals `segments[-1].end / 60` when the segment list is
non-empty and `0` when it is empty; and the front-matter `duration`
field written by `result_to_markdown` is that value formatted to one
decimal place followed by `min` (so `0.0 min` for an empty list, since
zero formats as `0.0`). -/
theorem duration_min_spec :
    (∀ (env : MEnv) (fp mn : String) (lg pr : Option String) (sink : Bool)
       (r : TranscriptResult),
       (transcribe_file env fp mn lg pr sink).2 = .ok r →
         (r.segments = [] → r.duration_min = 0)
       ∧ ∀ h : r.segments ≠ [], r.duration_min = (r.segments.getLast h).«end» / 60)
  ∧ (∀ (today : String) (r : TranscriptResult) (fn : String) (ds : Option String),
       ∃ rest, result_to_markdown today r fn ds =
         "---\ntype: transcript\ndate: " ++ ds.getD today
           ++ "\nsource: \"[[" ++ fn ++ "]]\"\nduration: "
           ++ formatFixed1 r.duration_min ++ " min\n" ++ rest)
  ∧ formatFixed1 0 = "0.0" := by
  refine ⟨?_, ?_, ?_⟩
  · intro env fp mn lg pr sink r hr
    by_cases h1 : env.fileExists fp
    · by_cases h2 : mn ∈ AVAILABLE_MODELS
      · simp only [transcribe_file, h1, h2, not_true_eq_false, if_false,
          Bool.not_eq_true] at hr
        cases hl : env.loadModel mn (get_device env) with
        | error e => rw [hl] at hr; simp at hr
        | ok u =>
          rw [hl] at hr
          cases hm : env.runModel mn (get_device env) fp
              (pyTruthyOpt lg) (pyTruthyOpt pr) with
          | error e => rw [hm] at hr; simp at hr
          | ok raw =>
            rw [hm] at hr
            simp only [Except.ok.injEq] at hr
            subst hr
            constructor
            · intro hseg
              replace hseg : (raw.segments.map fun s =>
                  ({ start := s.start, «end» := s.«end», text := pyStrip s.text }
                    : TranscriptSegment)) = [] := hseg
              simp only [hseg, List.getLast?_nil]
            · intro h
              replace h : (raw.segments.map fun s =>
                  ({ start := s.start, «end» := s.«end», text := pyStrip s.text }
                    : TranscriptSegment)) ≠ [] := h
              simp only [List.getLast?_eq_getLast _ h]
      · simp [transcribe_file, h1, h2] at hr
    · simp [transcribe_file, h1] at hr
  · intro today r fn ds
    refine ⟨"language: " ++ r.language ++ "\ndevice: " ++ r.device
      ++ "\nmodel: " ++ r.model ++ "\n---\n\n# Transcript: "
      ++ (splitext fn).1 ++ "\n"
      ++ String.join (r.segments.map fun s =>
           "\n**[" ++ format_timestamp s.start ++ "]** " ++ s.text ++ "\n"), ?_⟩
    rw [result_to_markdown_eq]
    simp only [String.append_assoc]
    rfl
  · simp only [formatFixed1, roundHalfEven]
    norm_num
    decide

/-- C1 witness: under a concrete successful environment the duration is
the last segment end over sixty, and the front-matter prefix is
produced. -/
theorem duration_min_spec_witness :
    resOneSeg.duration_min = (resOneSeg.segments.getLast (by decide)).«end» / 60
  ∧ (∃ rest, result_to_markdown "2026-10-12" resOneSeg "talk.mp3" none =
      "---\ntype: transcript\ndate: " ++ (none : Option String).getD "2026-10-12"
        ++ "\nsource: \"[[" ++ "talk.mp3" ++ "]]\"\nduration: "
        ++ formatFixed1 resOneSeg.duration_min ++ " min\n" ++ rest) :=
  ⟨(duration_min_spec.1 envOneSeg "talk.mp3" "medium" none none false resOneSeg
      rfl).2 (by decide),
   duration_min_spec.2.1 "2026-10-12" resOneSeg "talk.mp3" none⟩

/-! ### C6 — the shape of the Markdown document -/

/-- C6: the string produced by `result_to_markdown` is the front-matter
block delimited by `---` lines with the fields `type`, `date`, `source`,
`duration`, `language`, `device`, `model` in order, followed by the
title heading `# Transcript: <name>` (base name without extension) and
one blank-line-separated `**[MM:SS]** <text>` paragraph per segment in
segment-list order; and every segment text stored by `transcribe_file`
is a stripped string. -/
theorem result_to_markdown_format :
    (∀ (today : String) (r : TranscriptResult) (fn : String) (ds : Option String),
      result_to_markdown today r fn ds =
        "---\ntype: transcript\ndate: " ++ ds.getD today
          ++ "\nsource: \"[[" ++ fn ++ "]]\"\nduration: "
          ++ formatFixed1 r.duration_min ++ " min\nlanguage: " ++ r.language
          ++ "\ndevice: " ++ r.device ++ "\nmodel: " ++ r.model
          ++ "\n---\n\n# Transcript: " ++ (splitext fn).1 ++ "\n"
          ++ String.join (r.segments.map fun s =>
               "\n**[" ++ format_timestamp s.start ++ "]** " ++ s.text ++ "\n"))
  ∧ (∀ (env : MEnv) (fp mn : String) (lg pr : Option String) (sink : Bool)
       (r : TranscriptResult),
       (transcribe_file env fp mn lg pr sink).2 = .ok r →
       ∀ s ∈ r.segments, ∃ rawText, s.text = pyStrip rawText) := by
  refine ⟨result_to_markdown_eq, ?_⟩
  intro env fp mn lg pr sink r hr s hs
  by_cases h1 : env.fileExists fp
  · by_cases h2 : mn ∈ AVAILABLE_MODELS
    · simp only [transcribe_file, h1, h2, not_true_eq_false, if_false,
        Bool.not_eq_true] at hr
      cases hl : env.loadModel mn (get_device env) with
      | error e => rw [hl] at hr; simp at hr
      | ok u =>
        rw [hl] at hr
        cases hm : env.runModel mn (get_device env) fp
            (pyTruthyOpt lg) (pyTruthyOpt pr) with
        | error e => rw [hm] at hr; simp at hr
        | ok raw =>
          rw [hm] at hr
          simp only [Except.ok.injEq] at hr
          subst hr
          simp only [List.mem_map] at hs
          obtain ⟨a, -, ha⟩ := hs
          exact ⟨a.text, by rw [← ha]⟩
    · simp [transcribe_file, h1, h2] at hr
  · simp [transcribe_file, h1] at hr

/-- C6 witness: the equation instantiated at a concrete result, and the
trimmed-text property at its only segment. -/
theorem result_to_markdown_format_witness :
    result_to_markdown "2026-10-12" resOneSeg "talk.mp3" none =
      "---\ntype: transcript\ndate: " ++ (none : Option String).getD "2026-10-12"
        ++ "\nsource: \"[[" ++ "talk.mp3" ++ "]]\"\nduration: "
        ++ formatFixed1 resOneSeg.duration_min ++ " min\nlanguage: "
        ++ resOneSeg.language ++ "\ndevice: " ++ resOneSeg.device ++ "\nmodel: "
        ++ resOneSeg.model ++ "\n---\n\n# Transcript: "
        ++ (splitext "talk.mp3").1 ++ "\n"
        ++ String.join (resOneSeg.segments.map fun s =>
             "\n**[" ++ format_timestamp s.start ++ "]** " ++ s.text ++ "\n")
  ∧ ∃ rawText,
      ({ start := 0, «end» := 90, text := "hi" } : TranscriptSegment).text
        = pyStrip rawText :=
  ⟨result_to_markdown_format.1 "2026-10-12" resOneSeg "talk.mp3" none,
   result_to_markdown_format.2 envOneSeg "talk.mp3" "medium" none none false
     resOneSeg rfl _ (by decide)⟩


/-! ### C7 — path resolution in `save_transcript` -/

/-- C7 counterexample: with the explicit output path `""` the file is
not written at that path — `if output_path:` is falsy for the empty
string, so the auto-generated `Transcripts` path is resolved instead. -/
theorem save_transcript_empty_output :
    (save_transcript osEnvW fs0 resOneSeg "/a/b.mp3" (some "")).2
      = "/a/Transcripts/2026-10-12 b Transcript.md"
  ∧ (save_transcript osEnvW fs0 resOneSeg "/a/b.mp3" (some "")).2 ≠ "" := by
  constructor <;> decide

/-- C7 (amended: a *non-empty* explicit `output_path`): with a non-empty
explicit `output_path` the file is written exactly there after its
parent directory (when non-empty) is created; with `output_path`
omitted, the file goes to `<dir of source>/Transcripts/` (created) under
`<date> <base name without extension> Transcript.md`; the resolved path
is returned and holds the rendered Markdown. -/
theorem save_transcript_paths (env : OsEnv) (fs : FS) (r : TranscriptResult)
    (sp : String) :
    (∀ op : String, op ≠ "" →
      (save_transcript env fs r sp (some op)).2 = op
      ∧ (dirname (abspath env.cwd op) ≠ "" →
          dirname (abspath env.cwd op)
            ∈ ((save_transcript env fs r sp (some op)).1).dirs))
  ∧ ((save_transcript env fs r sp none).2 =
       joinPath (joinPath (dirname (abspath env.cwd sp)) "Transcripts")
         (env.today ++ " " ++ (splitext (basename sp)).1 ++ " Transcript.md")
     ∧ joinPath (dirname (abspath env.cwd sp)) "Transcripts"
         ∈ ((save_transcript env fs r sp none).1).dirs)
  ∧ (∀ op, ((save_transcript env fs r sp op).1).read
       ((save_transcript env fs r sp op).2)
       = some (result_to_markdown env.today r (basename sp) none)) := by
  refine ⟨?_, ?_, ?_⟩
  · intro op hop
    constructor
    · simp [save_transcript, hop]
    · intro hdir
      by_cases hd : dirname (abspath env.cwd op) = ""
      · exact absurd hd hdir
      · simp [save_transcript, hop, hd, FS.write, FS.makedirs]
  · constructor
    · simp [save_transcript, save_transcript_auto]
    · simp [save_transcript, save_transcript_auto, FS.write, FS.makedirs]
  · intro op
    cases op with
    | none =>
      simp [save_transcript, save_transcript_auto, FS.write, FS.makedirs,
        FS.read, List.lookup]
    | some o =>
      by_cases ho : o = ""
      · simp [save_transcript, save_transcript_auto, ho, FS.write, FS.makedirs,
          FS.read, List.lookup]
      · by_cases hd : dirname (abspath env.cwd o) = "" <;>
          simp [save_transcript, ho, hd, FS.write, FS.makedirs, FS.read,
            List.lookup]

/-- C7 witness: concrete explicit and omitted output paths. -/
theorem save_transcript_paths_witness :
    (save_transcript osEnvW fs0 resOneSeg "/a/b.mp3" (some "/out/t.md")).2
      = "/out/t.md"
  ∧ (save_transcript osEnvW fs0 resOneSeg "/a/b.mp3" none).2
      = joinPath (joinPath (dirname (abspath osEnvW.cwd "/a/b.mp3")) "Transcripts")
          (osEnvW.today ++ " " ++ (splitext (basename "/a/b.mp3")).1
            ++ " Transcript.md") :=
  ⟨((save_transcript_paths osEnvW fs0 resOneSeg "/a/b.mp3").1 "/out/t.md"
      (by decide)).1,
   (save_transcript_paths osEnvW fs0 resOneSeg "/a/b.mp3").2.1.1⟩

/-! ### C8 — `save_transcript` writes exactly one file -/

/-- C8: `save_transcript` creates or overwrites only the single resolved
target path, which afterwards holds the rendered Markdown; every other
path reads exactly as before the call (nothing else is written or
deleted). -/
theorem save_transcript_frame (env : OsEnv) (fs : FS) (r : TranscriptResult)
    (sp : String) (op : Option String) :
    (∀ q, q ≠ (save_transcript env fs r sp op).2 →
       ((save_transcript env fs r sp op).1).read q = fs.read q)
  ∧ ((save_transcript env fs r sp op).1).read ((save_transcript env fs r sp op).2)
      = some (result_to_markdown env.today r (basename sp) none) := by
  have hfiles : ((save_transcript env fs r sp op).1).files
      = ((save_transcript env fs r sp op).2,
          result_to_markdown env.today r (basename sp) none) :: fs.files := by
    cases op with
    | none => rfl
    | some o =>
      by_cases ho : o = ""
      · simp [save_transcript, save_transcript_auto, ho, FS.write, FS.makedirs]
      · by_cases hd : dirname (abspath env.cwd o) = "" <;>
          simp [save_transcript, ho, hd, FS.write, FS.makedirs]
  constructor
  · intro q hq
    have hbeq : (q == (save_transcript env fs r sp op).2) = false := by
      simp [hq]
    simp only [FS.read, hfiles, List.lookup_cons, hbeq]
  · simp only [FS.read, hfiles, List.lookup_cons_self]

/-- C8 witness: a concrete unrelated path is untouched. -/
theorem save_transcript_frame_witness :
    ((save_transcript osEnvW fs0 resOneSeg "/a/b.mp3" (some "/out/t.md")).1).read
        "/other.md"
      = fs0.read "/other.md" :=
  (save_transcript_frame osEnvW fs0 resOneSeg "/a/b.mp3" (some "/out/t.md")).1
    "/other.md" (by decide)

/-! ### C9 — the tool server catches every pipeline exception -/

/-- C9: a `transcribe` tool call always returns exactly one text
response (no exception escapes the handler), and whenever the pipeline
raises — not-found, invalid-model or any other error — the response is
that error's message behind the `❌ Error:` marker. -/
theorem call_tool_catches_errors (env : SrvEnv) (fs : FS) (args : ToolArgs) :
    (call_tool env fs "transcribe" args).2.length = 1
  ∧ (∀ fp e, args.file = some fp → fp ≠ "" →
      (transcribe_file env.m (expanduser env.home fp) (args.model.getD "medium")
        args.language args.prompt true).2 = .error e →
      (call_tool env fs "transcribe" args).2 = ["❌ Error: " ++ e.message]) := by
  constructor
  · by_cases h0 : args.file.getD "" = ""
    · simp [call_tool, h0]
    · by_cases hex : env.m.fileExists (expanduser env.home (args.file.getD ""))
      · cases htr : (transcribe_file env.m (expanduser env.home (args.file.getD ""))
            (args.model.getD "medium") args.language args.prompt true).2 with
        | error e => simp [call_tool, h0, hex, htr]
        | ok result => simp [call_tool, h0, hex, htr]
      · simp [call_tool, h0, hex]
  · intro fp e hfp hne htr
    have h0 : args.file.getD "" = fp := by rw [hfp]; rfl
    by_cases hex : env.m.fileExists (expanduser env.home fp)
    · simp [call_tool, h0, hne, hex, htr, TError.message]
    · have he : e = TError.fileNotFound
          ("File not found: " ++ expanduser env.home fp) := by
        simp [transcribe_file, hex] at htr
        exact htr.symm
      subst he
      simp [call_tool, h0, hne, hex, TError.message]
      rfl

/-- C9 witness: a concrete call with an unknown model name returns the
error-marked invalid-model message. -/
theorem call_tool_catches_errors_witness :
    (call_tool srvEnvW fs0 "transcribe"
        { file := some "/a.mp3", model := some "bogus", language := none,
          prompt := none, output := none, save_file := none }).2
      = ["❌ Error: " ++ (TError.invalidModel ("Invalid model: bogus. Available: "
          ++ pyListRepr AVAILABLE_MODELS)).message] :=
  (call_tool_catches_errors srvEnvW fs0 _).2 "/a.mp3" _ rfl (by decide) rfl


/-! ### C2 — what `format_timestamp` renders -/

/-- Flooring after division by sixty equals integer division of the
floor: the bridge between `seconds // 60` on floats and arithmetic on
the integer `floor(seconds)`. -/
theorem floor_div_sixty (s : ℚ) : ⌊s / 60⌋ = ⌊s⌋ / 60 := by
  have hmod : 0 ≤ ⌊s⌋ % 60 := Int.emod_nonneg _ (by norm_num)
  have hmodlt : ⌊s⌋ % 60 < 60 := Int.emod_lt_of_pos _ (by norm_num)
  have hdm : 60 * (⌊s⌋ / 60) + ⌊s⌋ % 60 = ⌊s⌋ := Int.ediv_add_emod _ _
  rw [Int.floor_eq_iff]
  constructor
  · rw [le_div_iff₀ (by norm_num : (0:ℚ) < 60)]
    have h1 : (⌊s⌋ / 60) * 60 ≤ ⌊s⌋ := by omega
    calc ((⌊s⌋ / 60 : ℤ) : ℚ) * 60 = (((⌊s⌋ / 60) * 60 : ℤ) : ℚ) := by push_cast; ring
      _ ≤ ((⌊s⌋ : ℤ) : ℚ) := by exact_mod_cast h1
      _ ≤ s := Int.floor_le s
  · rw [div_lt_iff₀ (by norm_num : (0:ℚ) < 60)]
    have h1 : ⌊s⌋ + 1 ≤ (⌊s⌋ / 60 + 1) * 60 := by omega
    calc s < (⌊s⌋ : ℚ) + 1 := Int.lt_floor_add_one s
      _ ≤ (((⌊s⌋ / 60 + 1) * 60 : ℤ) : ℚ) := by exact_mod_cast h1
      _ = (((⌊s⌋ / 60 : ℤ) : ℚ) + 1) * 60 := by push_cast; ring

/-- `format_timestamp` in closed form: the zero-padded minutes
`⌊s / 60⌋` and seconds `⌊s⌋ % 60` joined by a colon (the inner
`int(seconds % 60)` truncation computes exactly `⌊s⌋ % 60`). -/
theorem format_timestamp_eq (s : ℚ) :
    format_timestamp s = pad2 ⌊s / 60⌋ ++ ":" ++ pad2 (⌊s⌋ % 60) := by
  have hsec : ⌊s - 60 * ((⌊s / 60⌋ : ℤ) : ℚ)⌋ = ⌊s⌋ % 60 := by
    rw [show (60 * ((⌊s / 60⌋ : ℤ) : ℚ)) = (((60 * ⌊s / 60⌋ : ℤ) : ℤ) : ℚ) by push_cast; ring,
      Int.floor_sub_int, floor_div_sixty]
    omega
  simp only [format_timestamp, hsec]

/-- C2: for every non-negative number of seconds, `format_timestamp`
renders `⌊s / 60⌋` as the minutes part and `⌊s⌋ % 60` as the seconds
part — truncated, never rounded up — each zero-padded to at least two
digits and joined by a colon, with no upper bound on the minutes part
(`pad2` never truncates a longer minutes rendering). -/
theorem format_timestamp_spec (s : ℚ) (hs : 0 ≤ s) :
    format_timestamp s = pad2 ⌊s / 60⌋ ++ ":" ++ pad2 (⌊s⌋ % 60) :=
  format_timestamp_eq s

/-- C2 witness: at 125 seconds the theorem applies (and renders 02:05). -/
theorem format_timestamp_spec_witness :
    (0:ℚ) ≤ 125
  ∧ format_timestamp 125 = pad2 ⌊(125:ℚ) / 60⌋ ++ ":" ++ pad2 (⌊(125:ℚ)⌋ % 60) :=
  ⟨by norm_num, format_timestamp_spec 125 (by norm_num)⟩

/-! ### C3 — monotonicity of the rendered timestamps -/

/-- Comparison of decimal digit characters mirrors comparison of the
digits. -/
theorem digitChar_lt_iff :
    ∀ a, a < 10 → ∀ b, b < 10 → (digitChar a < digitChar b ↔ a < b) := by decide

/-- One digit renders as itself whenever any fuel is left. -/
theorem natDecimalAux_small (fuel n : ℕ) (hf : 0 < fuel) (hn : n < 10) :
    natDecimalAux fuel n = [digitChar n] := by
  cases fuel with
  | zero => exact absurd hf (by omega)
  | succ f => simp [natDecimalAux, hn]

/-- For `m < 100` the padded rendering is exactly the two digit
characters of `m`. -/
theorem pad2_eq_digits (m : ℕ) (hm : m < 100) :
    pad2 (m : ℤ) = ⟨[digitChar (m / 10), digitChar (m % 10)]⟩ := by
  have hnotneg : ¬ ((m : ℤ) < 0) := by omega
  by_cases h10 : m < 10
  · have : natDecimal m = ⟨[digitChar m]⟩ := by
      simp [natDecimal, natDecimalAux, h10]
    have hq : m / 10 = 0 := by omega
    have hr : m % 10 = m := by omega
    simp only [pad2, intDecimal, hnotneg, if_false, Int.toNat_natCast, this,
      hq, hr, String.length, List.length_cons, List.length_nil]
    norm_num
    rfl
  · have hsplit : natDecimal m = ⟨[digitChar (m / 10), digitChar (m % 10)]⟩ := by
      simp only [natDecimal]
      rw [show m + 1 = (m + 1 - 1) + 1 by omega]
      simp only [natDecimalAux, h10, if_false]
      rw [show m + 1 - 1 = m from rfl,
        natDecimalAux_small m (m / 10) (by omega) (by omega)]
      rfl
    simp only [pad2, intDecimal, hnotneg, if_false, Int.toNat_natCast, hsplit,
      String.length, List.length_cons, List.length_nil]
    norm_num

/-- Digit-wise comparison of two-digit numbers. -/
theorem digit_pair_lt (x y : ℕ) (hy : y < 100) (hxy : x < y) :
    digitChar (x / 10) < digitChar (y / 10)
    ∨ digitChar (x / 10) = digitChar (y / 10)
      ∧ digitChar (x % 10) < digitChar (y % 10) := by
  have hx : x < 100 := by omega
  have hq : x / 10 ≤ y / 10 := Nat.div_le_div_right (by omega)
  rcases Nat.lt_or_ge (x / 10) (y / 10) with h | h
  · exact Or.inl ((digitChar_lt_iff (x / 10) (by omega) (y / 10) (by omega)).2 h)
  · have hqe : x / 10 = y / 10 := by omega
    have hrx : x % 10 < y % 10 := by omega
    exact Or.inr ⟨by rw [hqe],
      (digitChar_lt_iff (x % 10) (by omega) (y % 10) (by omega)).2 hrx⟩

/-- Lexicographic comparison of five-character lists that agree on the
middle character. -/
theorem lex5_le (c a1 a2 a3 a4 b1 b2 b3 b4 : Char)
    (h : a1 < b1 ∨ a1 = b1 ∧ (a2 < b2 ∨ a2 = b2
      ∧ (a3 < b3 ∨ a3 = b3 ∧ (a4 < b4 ∨ a4 = b4)))) :
    ([a1, a2, c, a3, a4] : List Char) ≤ [b1, b2, c, b3, b4] := by
  rcases h with h | ⟨rfl, h | ⟨rfl, h | ⟨rfl, h | rfl⟩⟩⟩
  · exact le_of_lt (by exact List.Lex.rel h)
  · exact List.cons_le_cons _ (le_of_lt (by exact List.Lex.rel h))
  · exact List.cons_le_cons _ (List.cons_le_cons _ (List.cons_le_cons _
      (le_of_lt (by exact List.Lex.rel h))))
  · exact List.cons_le_cons _ (List.cons_le_cons _ (List.cons_le_cons _
      (List.cons_le_cons _ (le_of_lt (by exact List.Lex.rel h)))))
  · exact le_refl _

/-- Rendered timestamps are non-decreasing as strings on `[0, 6000)`
seconds (below 100 minutes, where the minutes part stays two digits
wide). -/
theorem format_timestamp_le (s t : ℚ) (h0 : 0 ≤ s) (hst : s ≤ t)
    (ht : t < 6000) : format_timestamp s ≤ format_timestamp t := by
  have hfs0 : 0 ≤ ⌊s⌋ := Int.floor_nonneg.2 h0
  have hmono : ⌊s⌋ ≤ ⌊t⌋ := Int.floor_le_floor hst
  have hft : ⌊t⌋ < 6000 := by
    rw [Int.floor_lt]
    exact_mod_cast ht
  rw [format_timestamp_eq s, format_timestamp_eq t, floor_div_sixty,
    floor_div_sixty]
  obtain ⟨a, ha⟩ : ∃ a : ℕ, ⌊s⌋ = (a:ℤ) :=
    ⟨⌊s⌋.toNat, (Int.toNat_of_nonneg hfs0).symm⟩
  obtain ⟨b, hb⟩ : ∃ b : ℕ, ⌊t⌋ = (b:ℤ) :=
    ⟨⌊t⌋.toNat, (Int.toNat_of_nonneg (le_trans hfs0 hmono)).symm⟩
  rw [ha] at hmono ⊢
  rw [hb] at hmono hft ⊢
  have hab : a ≤ b := by exact_mod_cast hmono
  have hb6000 : b < 6000 := by exact_mod_cast hft
  have hda : ((a:ℤ)) / 60 = ((a / 60 : ℕ) : ℤ) := (Int.natCast_div a 60).symm
  have hdb : ((b:ℤ)) / 60 = ((b / 60 : ℕ) : ℤ) := (Int.natCast_div b 60).symm
  have hma : ((a:ℤ)) % 60 = ((a % 60 : ℕ) : ℤ) := (Int.natCast_mod a 60).symm
  have hmb : ((b:ℤ)) % 60 = ((b % 60 : ℕ) : ℤ) := (Int.natCast_mod b 60).symm
  rw [hda, hdb, hma, hmb, pad2_eq_digits (a / 60) (by omega),
    pad2_eq_digits (b / 60) (by omega), pad2_eq_digits (a % 60) (by omega),
    pad2_eq_digits (b % 60) (by omega)]
  refine String.le_iff_toList_le.2 (lex5_le ':' _ _ _ _ _ _ _ _ ?_)
  rcases Nat.lt_or_ge (a / 60) (b / 60) with hq | hq
  · exact (digit_pair_lt (a / 60) (b / 60) (by omega) hq).imp id
      (fun hp => ⟨hp.1, Or.inl hp.2⟩)
  · have hqe : a / 60 = b / 60 := by
      have := Nat.div_le_div_right (c := 60) hab
      omega
    have hsec : a % 60 ≤ b % 60 := by omega
    rcases Nat.lt_or_ge (a % 60) (b % 60) with hr | hr
    · exact Or.inr ⟨by rw [hqe], Or.inr ⟨by rw [hqe],
        (digit_pair_lt (a % 60) (b % 60) (by omega) hr).imp id
          (fun hp => ⟨hp.1, Or.inl hp.2⟩)⟩⟩
    · have hre : a % 60 = b % 60 := by omega
      exact Or.inr ⟨by rw [hqe], Or.inr ⟨by rw [hqe],
        Or.inr ⟨by rw [hre], Or.inr (by rw [hre])⟩⟩⟩

/-- C3 counterexample: the segments starting at 5940 s and 6000 s are
sorted by start, but their renderings "99:00" and "100:00" compare the
other way around as strings (":" sorts above a digit), so the rendered
sequence is not non-decreasing. -/
theorem timestamps_not_string_monotone :
    (([{ start := 5940, «end» := 5941, text := "a" },
       { start := 6000, «end» := 6001, text := "b" }] :
        List TranscriptSegment).Pairwise (fun a b => a.start ≤ b.start))
  ∧ ¬ ((([{ start := 5940, «end» := 5941, text := "a" },
          { start := 6000, «end» := 6001, text := "b" }] :
           List TranscriptSegment).map fun g => format_timestamp g.start).Pairwise
        (· ≤ ·)) := by
  constructor
  · simp only [List.pairwise_cons, List.mem_singleton, List.mem_cons,
      List.not_mem_nil, or_false, forall_eq, List.Pairwise.nil,
      List.pairwise_cons, and_true]
    norm_num
  · intro h
    have h1 : format_timestamp 5940 = "99:00" := by
      simp only [format_timestamp]
      norm_num
      decide
    have h2 : format_timestamp 6000 = "100:00" := by
      simp only [format_timestamp]
      norm_num
      decide
    simp only [List.map_cons, List.map_nil, h1, h2, List.pairwise_cons,
      List.mem_singleton, List.mem_cons, List.not_mem_nil, or_false,
      forall_eq] at h
    have hlt : ("100:00" : String) < "99:00" := by
      rw [String.lt_iff_toList_lt]
      exact List.Lex.rel (by decide)
    exact absurd hlt (not_lt_of_le h.1)

/-- C3 (amended: all starts below 6000 seconds, i.e. below 100 minutes):
for segments sorted by start whose starts lie in `[0, 6000)`, the
rendered `MM:SS` strings, in the order `result_to_markdown` emits them,
are non-decreasing in the string order. -/
theorem timestamps_monotone (segs : List TranscriptSegment)
    (hbound : ∀ g ∈ segs, 0 ≤ g.start ∧ g.start < 6000)
    (hsorted : segs.Pairwise (fun a b => a.start ≤ b.start)) :
    (segs.map fun g => format_timestamp g.start).Pairwise (· ≤ ·) := by
  rw [List.pairwise_map]
  refine hsorted.imp_of_mem ?_
  intro a b ha hb hab
  exact format_timestamp_le a.start b.start (hbound a ha).1 hab (hbound b hb).2

/-- C3 witness: a concrete sorted segment list with bounded starts has
non-decreasing rendered timestamps. -/
theorem timestamps_monotone_witness :
    (([{ start := 0, «end» := 1, text := "a" },
       { start := 90, «end» := 91, text := "b" }] :
        List TranscriptSegment).map fun g => format_timestamp g.start).Pairwise
      (· ≤ ·) := by
  refine timestamps_monotone _ ?_ ?_
  · intro g hg
    rcases List.mem_cons.1 hg with rfl | hg2
    · norm_num
    · rcases List.mem_cons.1 hg2 with rfl | hg3
      · norm_num
      · cases hg3
  · simp only [List.pairwise_cons, List.mem_singleton, List.mem_cons,
      List.not_mem_nil, or_false, forall_eq]
    norm_num

end WhisperTranscribe
